import Mathlib

/-!
Verification of the WTFIX launch and configuration layer.

This file shallowly embeds the two source files of the repository:

* `run_client.py` — the process lifecycle orchestrator (`__main__` block):
  exception-to-exit-code dispatch, and the `finally` cleanup that issues one
  more `stop()` attempt.
* `wtfix/conf/__init__.py` — the `Settings` resolver and the
  `SessionSettings` projector.

Python dynamic values are embedded as the inductive `PyValue`; Python dicts
and module attribute tables become association lists (`List (String × _)`)
whose key lists are assumed duplicate-free where Python guarantees it.
Exceptions become an explicit `PyError` sum carried in `Except`.  Dynamic
module/class loading (`importlib.import_module` + `getattr`) is abstracted
as an import environment `mods : String → Option (List (String × ClassRef))`
mapping a module name to its attribute table of classes.
-/

set_option autoImplicit false

namespace WTFIX

/-- Embedded Python values, as far as the configuration layer inspects them. -/
inductive PyValue where
  | none
  | str (s : String)
  | int (n : Int)
  | bool (b : Bool)
  | list (xs : List PyValue)
  | tuple (xs : List PyValue)
  | dict (xs : List (String × PyValue))

/-- A resolved protocol class is identified by an opaque reference; we use the
class name carried by the import environment. -/
abbrev ClassRef := String

/-- The Python exception kinds the configuration layer can raise.
`improperlyConfigured` embeds `wtfix.core.exceptions.ImproperlyConfigured`
(the spec's ConfigurationError); the rest are builtin exception types the
code can raise dynamically. -/
inductive PyError where
  | improperlyConfigured (msg : String)
  | keyError (key : String)
  | importError (modName : String)
  | attributeError (name : String)
  | valueError (msg : String)
  | typeError (msg : String)
deriving DecidableEq

/-- Whether an exception is the library's `ImproperlyConfigured`
(ConfigurationError). -/
def isImproperlyConfigured : PyError → Bool
  | .improperlyConfigured _ => true
  | _ => false

/-! ## run_client.py — lifecycle orchestrator (`__main__`, lines 70–118)

The `try` body blocks on `fix_pipeline.start().result()`; its outcome is one
of the exception classes of the `except` chain (or normal completion).  The
`finally` block always runs `fix_pipeline.stop().result()` once more, catching
only `CancelledError`.  `sys.exit(n)` raises `SystemExit n`; an exception
raised inside the `finally` block replaces the in-flight exception. -/

/-- `os.EX_OK` — the "success" exit status. -/
def EX_OK : Nat := 0

/-- `os.EX_UNAVAILABLE` — the "service unavailable" exit status. -/
def EX_UNAVAILABLE : Nat := 69

/-- How the blocking `fix_pipeline.start().result()` call terminates
(run_client.py line 90), classified by the `except` chain of lines 92–110. -/
inductive StartOutcome where
  | completed
  | timeoutErr (msg : String)
  | keyboardInterrupt
  | cancelledErr (msg : String)
  | improperlyConfigured (msg : String)
  | otherExc (msg : String)
deriving DecidableEq

/-- How the cleanup-time `fix_pipeline.stop().result()` call of the `finally`
block (line 114) terminates. -/
inductive StopOutcome where
  | ok
  | cancelledErr (msg : String)
  | otherExc (msg : String)
deriving DecidableEq

/-- The observable fate of the process. `exit c` is a clean `sys.exit(c)`;
`uncaught msg` is an exception escaping `__main__` (interpreter aborts with a
traceback, exit status 1 — neither `EX_OK` nor a chosen code). -/
inductive ProcResult where
  | exit (code : Nat)
  | uncaught (msg : String)
deriving DecidableEq

/-- The `except` chain of run_client.py lines 92–110: the `sys.exit` status it
selects for each abnormal start outcome, `none` when the body completed and no
exception is in flight. -/
def exceptChainStatus : StartOutcome → Option Nat
  | .completed => Option.none
  | .timeoutErr _ => some EX_UNAVAILABLE
  | .keyboardInterrupt => some EX_OK
  | .cancelledErr _ => some EX_UNAVAILABLE
  | .improperlyConfigured _ => some EX_OK
  | .otherExc _ => some EX_UNAVAILABLE

/-- The `finally` block of run_client.py lines 112–117, applied to the
exception state left by the `except` chain.  It issues one more stop attempt;
a `CancelledError` from that attempt triggers `sys.exit(os.EX_UNAVAILABLE)`,
replacing any pending `SystemExit`; any other exception from it propagates,
also replacing the pending exception. -/
def finallyBlock (pending : Option Nat) (cleanupStop : StopOutcome) : ProcResult :=
  match cleanupStop with
  | .cancelledErr _ => .exit EX_UNAVAILABLE
  | .otherExc m => .uncaught m
  | .ok =>
    match pending with
    | some c => .exit c
    | Option.none => .exit EX_OK

/-- The whole `__main__` `try/except/finally` of run_client.py lines 81–118:
given how `start()` terminated and how the cleanup-time `stop()` terminates,
the process fate together with the number of cleanup-time stop attempts
issued (the `finally` block always issues exactly one). -/
def runClientMain (start : StartOutcome) (cleanupStop : StopOutcome) :
    ProcResult × Nat :=
  (finallyBlock (exceptChainStatus start) cleanupStop, 1)

/-! ## wtfix/conf/__init__.py — the Settings resolver -/

/-- `ENVIRONMENT_VARIABLE = "WTFIX_SETTINGS_MODULE"` (conf line 39). -/
def ENVIRONMENT_VARIABLE : String := "WTFIX_SETTINGS_MODULE"

/-- Python `str.isupper()` on identifier-like names: at least one cased
character and no lowercase one. -/
def pyIsUpper (s : String) : Bool :=
  s.toList.any (fun c => c.isAlpha) && s.toList.all (fun c => !c.isLower)

/-- Python truthiness of `os.environ.get(...)`: falsy when the variable is
unset (`None`) or set to the empty string. -/
def pyFalsyStrOpt : Option String → Bool
  | Option.none => true
  | some s => s = ""

/-- `setattr` on an object modelled as an attribute association list: replace
the binding if the name is present, append it otherwise. -/
def setattrL (attrs : List (String × PyValue)) (name : String) (v : PyValue) :
    List (String × PyValue) :=
  if attrs.any (fun p => p.1 = name) then
    attrs.map (fun p => if p.1 = name then (name, v) else p)
  else
    attrs ++ [(name, v)]

/-- Attribute / dict lookup: the value bound to `name`, if any. -/
def lookupA (name : String) (attrs : List (String × PyValue)) : Option PyValue :=
  (attrs.find? (fun p => p.1 = name)).map Prod.snd

/-- The mutable state of the process-wide `Settings` object: its attribute
table (every name assigned with `setattr`, including `CONNECTIONS`,
`PIPELINE_APPS` and `WTFIX_SETTINGS_MODULE`), the `_explicit_settings` set,
and the two private mutable cells `_active_protocol` and `_logger`. -/
structure SettingsState where
  attrs : List (String × PyValue)
  explicitSettings : List String
  activeProtocol : Option ClassRef
  loggerCell : Option String

/-- `getattr` on the Settings object for the upper-case settings names. -/
def SettingsState.getattr (st : SettingsState) (name : String) : Option PyValue :=
  lookupA name st.attrs

/-- The module-name stage of `Settings.__init__` (conf lines 43–53): take the
explicit argument if given, otherwise read `WTFIX_SETTINGS_MODULE` from the
environment and fail with `ImproperlyConfigured` when that is unset or empty. -/
def settingsModuleName (settings_module : Option String) (envVar : Option String) :
    Except PyError String :=
  match settings_module with
  | some m => Except.ok m
  | Option.none =>
    if pyFalsyStrOpt envVar then
      Except.error (PyError.improperlyConfigured
        ("Settings are not configured. You must either define the environment variable "
          ++ ENVIRONMENT_VARIABLE
          ++ " or call settings.configure() before accessing settings."))
    else
      Except.ok (envVar.getD "")

/-- `isinstance(setting_value, (list, tuple))` (conf lines 71–73). -/
def isinstanceListOrTuple : PyValue → Bool
  | .list _ => true
  | .tuple _ => true
  | _ => false

/-- The override-module loop of `Settings.__init__` (conf lines 66–78): for
every upper-case attribute of the loaded module, reject a `PIPELINE_APPS`
value that is not a list or tuple, otherwise `setattr` it and record it as
explicitly set. -/
def settingsLoop :
    List (String × PyValue) → List (String × PyValue) → List String →
    Except PyError (List (String × PyValue) × List String)
  | [], attrs, expl => Except.ok (attrs, expl)
  | (setting, v) :: rest, attrs, expl =>
    if pyIsUpper setting then
      if setting = "PIPELINE_APPS" && !isinstanceListOrTuple v then
        Except.error (PyError.improperlyConfigured
          ("The " ++ setting ++ " setting must be a list or a tuple. "))
      else
        settingsLoop rest (setattrL attrs setting v) (expl ++ [setting])
    else
      settingsLoop rest attrs expl

/-- `Settings.__init__` (conf lines 43–80).  `globalSettings` is the attribute
table of `wtfix.conf.global_settings` (that module is not part of the visible
sources; only its upper-case attributes matter here) and `importMod` is
the import environment for settings modules.  Steps, in source order: resolve the
settings module name, copy the upper-case global settings, store
`WTFIX_SETTINGS_MODULE`, import the override module (an unloadable module is
an `ImportError`), run the override loop, and initialise `_active_protocol`
to `None`. -/
def settingsInit (globalSettings : List (String × PyValue))
    (importMod : String → Option (List (String × PyValue)))
    (settings_module : Option String) (envVar : Option String) :
    Except PyError SettingsState := do
  let name ← settingsModuleName settings_module envVar
  let attrs0 := (globalSettings.filter (fun p => pyIsUpper p.1)).foldl
    (fun a p => setattrL a p.1 p.2) []
  let attrs1 := setattrL attrs0 "WTFIX_SETTINGS_MODULE" (PyValue.str name)
  match importMod name with
  | Option.none => Except.error (PyError.importError name)
  | some modAttrs => do
    let res ← settingsLoop modAttrs attrs1 []
    Except.ok { attrs := res.1, explicitSettings := res.2,
                activeProtocol := Option.none, loggerCell := Option.none }

/-- `len()` of an embedded Python value, for the sized builtin types. -/
def pyLen : PyValue → Except PyError Nat
  | .str s => Except.ok s.length
  | .list xs => Except.ok xs.length
  | .tuple xs => Except.ok xs.length
  | .dict xs => Except.ok xs.length
  | _ => Except.error (PyError.typeError "object has no len()")

/-- `Settings.has_safe_defaults` (conf lines 82–84): `len(self.CONNECTIONS) == 1`.
A missing `CONNECTIONS` attribute is an `AttributeError`. -/
def has_safe_defaults (st : SettingsState) : Except PyError Bool := do
  match st.getattr "CONNECTIONS" with
  | Option.none => Except.error (PyError.attributeError "CONNECTIONS")
  | some v => do
    let n ← pyLen v
    Except.ok (n == 1)

/-- `Settings.default_connection_name` (conf lines 86–94): the first key of
`CONNECTIONS` when `has_safe_defaults`, otherwise `ImproperlyConfigured`.
(`next(iter(...))` over a dict yields its first key in insertion order;
the empty-dict case cannot be reached because `has_safe_defaults` then
fails, but is mapped to the `StopIteration` it would raise.) -/
def default_connection_name (st : SettingsState) : Except PyError String := do
  let safe ← has_safe_defaults st
  if safe then
    match st.getattr "CONNECTIONS" with
    | some (.dict cs) =>
      match cs.head? with
      | some p => Except.ok p.1
      | Option.none => Except.error (PyError.typeError "StopIteration")
    | some (.str s) =>
      match s.toList.head? with
      | some c => Except.ok (String.mk [c])
      | Option.none => Except.error (PyError.typeError "StopIteration")
    | _ => Except.error (PyError.typeError "object is not iterable")
  else
    Except.error (PyError.improperlyConfigured
      ("Cannot fall back to using session defaults as more than one session has been configured "
        ++ "using the \x27SESSIONS\x27 parameter. You MUST specify which sessions\x27 configuration settings to use."))

/-! ## Dynamic protocol class loading

`mod_name, class_name = ref.rsplit(".", 1)` followed by
`importlib.import_module(mod_name)` and `getattr(module, class_name)`
(conf lines 103–105 and 173–175).  The import environment `mods` maps a
module name to its attribute table of classes. -/

/-- Split a character list around its last dot, if any: `some (before, after)`
with the dot removed, preferring the rightmost dot. -/
def splitLastDot : List Char → Option (List Char × List Char)
  | [] => Option.none
  | c :: rest =>
    match splitLastDot rest with
    | some (b, a) => some (c :: b, a)
    | Option.none => if c = '.' then some ([], rest) else Option.none

/-- Python `s.rsplit(".", 1)`: split at the last dot; a dotless string stays
whole (and then the two-name unpacking fails with a `ValueError`). -/
def rsplitDot1 (s : String) : List String :=
  match splitLastDot s.toList with
  | some (b, a) => [String.mk b, String.mk a]
  | Option.none => [s]

/-- Resolve a dotted `PROTOCOL` reference to a class through the import
environment: unpack the `rsplit` result (a `ValueError` when there is no
dot), import the module (`ImportError` when unloadable), then look the class
up on it (`AttributeError` when absent). -/
def loadClass (mods : String → Option (List (String × ClassRef))) (ref : String) :
    Except PyError ClassRef :=
  match rsplitDot1 ref with
  | [modName, clsName] =>
    match mods modName with
    | Option.none => Except.error (PyError.importError modName)
    | some modTable =>
      match (modTable.find? (fun p => p.1 = clsName)).map Prod.snd with
      | Option.none => Except.error (PyError.attributeError clsName)
      | some c => Except.ok c
  | _ => Except.error (PyError.valueError "not enough values to unpack")

/-! ## SessionSettings — the session settings projector (conf lines 161–179) -/

/-- Resolution of a `PROTOCOL` setting value (conf lines 173–175): `rsplit`
on a non-string value is an `AttributeError`, a string goes through the
dynamic class load. -/
def resolveProtocolValue (mods : String → Option (List (String × ClassRef))) :
    PyValue → Except PyError ClassRef
  | .str s => loadClass mods s
  | _ => Except.error (PyError.attributeError "rsplit")

/-- The attribute loop of `SessionSettings.__init__` (conf lines 171–179):
walk the connection's settings in order; a `PROTOCOL` entry is resolved
through the import environment and published into the shared
`settings.active_protocol` cell before being `setattr`-ed onto the view like
any other entry. -/
def projectLoop (mods : String → Option (List (String × ClassRef))) :
    List (String × PyValue) → SettingsState → List (String × PyValue) →
    Except PyError (List (String × PyValue) × SettingsState)
  | [], st, view => Except.ok (view, st)
  | (setting, v) :: rest, st, view =>
    if setting = "PROTOCOL" then
      match resolveProtocolValue mods v with
      | Except.error e => Except.error e
      | Except.ok c =>
        projectLoop mods rest { st with activeProtocol := some c }
          (setattrL view setting v)
    else
      projectLoop mods rest st (setattrL view setting v)

/-- The body of `SessionSettings.__init__` for a known connection name:
`settings.CONNECTIONS[connection_name]` (a `KeyError` when the name is not a
key, a `TypeError`/`AttributeError` when `CONNECTIONS` has the wrong shape)
followed by the attribute loop.  Returns the view's attribute table and the
updated shared settings state. -/
def sessionInitNamed (mods : String → Option (List (String × ClassRef)))
    (st : SettingsState) (connection_name : String) :
    Except PyError (List (String × PyValue) × SettingsState) :=
  match st.getattr "CONNECTIONS" with
  | Option.none => Except.error (PyError.attributeError "CONNECTIONS")
  | some (.dict cs) =>
    match lookupA connection_name cs with
    | Option.none => Except.error (PyError.keyError connection_name)
    | some (.dict conn) => projectLoop mods conn st []
    | some _ => Except.error (PyError.attributeError "items")
  | some _ => Except.error (PyError.typeError "object is not subscriptable")

/-- `SessionSettings.__init__` (conf lines 167–179).  When `connection_name`
is omitted the source evaluates `settings.default_connection[0]`:
`default_connection` builds a full `SessionSettings` for the default
connection name (side effects and all), and the `[0]` subscript then raises
`TypeError`, since `SessionSettings` defines no `__getitem__`. -/
def sessionInit (mods : String → Option (List (String × ClassRef)))
    (st : SettingsState) (connection_name : Option String) :
    Except PyError (List (String × PyValue) × SettingsState) :=
  match connection_name with
  | some n => sessionInitNamed mods st n
  | Option.none => do
    let name ← default_connection_name st
    let _ ← sessionInitNamed mods st name
    Except.error (PyError.typeError "\x27SessionSettings\x27 object is not subscriptable")

/-- `Settings.active_protocol` getter (conf lines 100–109).  On a warm cache
it returns the cached class and performs nothing else.  On a cold cache it
builds `self.default_connection` (a full projection of the default
connection, itself publishing into the cache), reads `PROTOCOL` off that
view, resolves it, stores it, and returns it.  The final `Nat` counts the
class resolutions performed by the getter itself (`0` on the warm path). -/
def active_protocol_get (mods : String → Option (List (String × ClassRef)))
    (st : SettingsState) : Except PyError (ClassRef × SettingsState × Nat) :=
  match st.activeProtocol with
  | some c => Except.ok (c, st, 0)
  | Option.none => do
    let name ← default_connection_name st
    let (view, st1) ← sessionInitNamed mods st name
    match lookupA "PROTOCOL" view with
    | Option.none => Except.error (PyError.attributeError "PROTOCOL")
    | some (.str s) => do
      let c ← loadClass mods s
      Except.ok (c, { st1 with activeProtocol := some c }, 1)
    | some _ => Except.error (PyError.attributeError "rsplit")

/-- `Settings.active_protocol` setter (conf lines 111–113): overwrite the
cache unconditionally. -/
def active_protocol_set (st : SettingsState) (c : ClassRef) : SettingsState :=
  { st with activeProtocol := some c }

/-! ## Settings.get_group_templates (conf lines 126–149) -/

/-- Python `", ".join`-style concatenation used to render the missing
identifier set in the error message. -/
def pyJoin (sep : String) : List String → String
  | [] => ""
  | [a] => a
  | a :: rest => a ++ sep ++ pyJoin sep rest

/-- `Settings.get_group_templates(connection_name, identifiers)`.  The
identifier set is modelled as a duplicate-free list.  With no identifiers
the connection's whole `GROUP_TEMPLATES` dict is returned; otherwise the
templates whose identifier is requested are kept, and a count mismatch
reports the missing identifiers by name as `ImproperlyConfigured`. -/
def get_group_templates_named (st : SettingsState) (name : String)
    (identifiers : Option (List String)) :
    Except PyError (List (String × PyValue)) :=
  match st.getattr "CONNECTIONS" with
  | Option.none => Except.error (PyError.attributeError "CONNECTIONS")
  | some (.dict cs) =>
    match lookupA name cs with
    | Option.none => Except.error (PyError.keyError name)
    | some (.dict conn) =>
      match lookupA "GROUP_TEMPLATES" conn with
      | Option.none => Except.error (PyError.keyError "GROUP_TEMPLATES")
      | some (.dict session_templates) =>
        match identifiers with
        | Option.none => Except.ok session_templates
        | some ids =>
          let templates := session_templates.filter (fun p => ids.contains p.1)
          if templates.length = ids.length then
            Except.ok templates
          else
            Except.error (PyError.improperlyConfigured
              ("No group template defined for identifier(s): "
                ++ pyJoin ", " (ids.filter (fun i => !(templates.any (fun p => p.1 = i))))
                ++ "."))
      | some _ => Except.error (PyError.attributeError "items")
    | some _ => Except.error (PyError.typeError "object is not subscriptable")
  | some _ => Except.error (PyError.typeError "object is not subscriptable")

/-- `Settings.get_group_templates` head (conf lines 127–128): an omitted
connection name falls back to `default_connection_name` before the lookup. -/
def get_group_templates (st : SettingsState) (connection_name : Option String)
    (identifiers : Option (List String)) :
    Except PyError (List (String × PyValue)) :=
  match connection_name with
  | some n => get_group_templates_named st n identifiers
  | Option.none => do
    let n ← default_connection_name st
    get_group_templates_named st n identifiers

/-- A settings state with exactly one configured connection, used by several
concrete scenarios below. -/
def stOneConn : SettingsState :=
  { attrs := [("CONNECTIONS", PyValue.dict [("test", PyValue.dict [])])],
    explicitSettings := [], activeProtocol := Option.none, loggerCell := Option.none }

/-- A settings state with two configured connections. -/
def stTwoConn : SettingsState :=
  { attrs := [("CONNECTIONS", PyValue.dict
      [("a", PyValue.dict []), ("b", PyValue.dict [])])],
    explicitSettings := [], activeProtocol := Option.none, loggerCell := Option.none }

/-- A concrete import environment: module "proto" exposes classes `A` and
`B`; nothing else is loadable. -/
def demoMods : String → Option (List (String × ClassRef)) :=
  fun n => if n = "proto" then some [("A", "clsA"), ("B", "clsB")] else Option.none

/-- An import environment in which no module is loadable. -/
def demoNoMods : String → Option (List (String × ClassRef)) :=
  fun _ => Option.none

/-- A settings state with a sole connection "test" whose `PROTOCOL` resolves
through `demoMods`. -/
def stProto : SettingsState :=
  { attrs := [("CONNECTIONS", PyValue.dict
      [("test", PyValue.dict [("PROTOCOL", PyValue.str "proto.A")])])],
    explicitSettings := [], activeProtocol := Option.none, loggerCell := Option.none }

/-- A settings state with a sole connection "test" whose `PROTOCOL` names an
unloadable module. -/
def stBadProto : SettingsState :=
  { attrs := [("CONNECTIONS", PyValue.dict
      [("test", PyValue.dict [("PROTOCOL", PyValue.str "nosuch.X")])])],
    explicitSettings := [], activeProtocol := Option.none, loggerCell := Option.none }

/-- A settings state with two connections "X" and "Y" defining different
`PROTOCOL` references. -/
def stXY : SettingsState :=
  { attrs := [("CONNECTIONS", PyValue.dict
      [("X", PyValue.dict [("PROTOCOL", PyValue.str "proto.A")]),
       ("Y", PyValue.dict [("PROTOCOL", PyValue.str "proto.B")])])],
    explicitSettings := [], activeProtocol := Option.none, loggerCell := Option.none }

/-- A settings state with a sole connection "test" holding one non-protocol
parameter. -/
def stPlain : SettingsState :=
  { attrs := [("CONNECTIONS", PyValue.dict
      [("test", PyValue.dict [("HOST", PyValue.str "localhost")])])],
    explicitSettings := [], activeProtocol := Option.none, loggerCell := Option.none }

/-- `stXY` after projecting connection "X". -/
def stXYafterX : SettingsState := { stXY with activeProtocol := some "clsA" }

/-- `stXY` after projecting connection "X" and then connection "Y". -/
def stXYafterXY : SettingsState := { stXY with activeProtocol := some "clsB" }

/-- Sequencing a successful `Except` computation. -/
theorem exceptOkBind {ε α β : Type} (a : α) (f : α → Except ε β) :
    (Except.ok a : Except ε α) >>= f = f a := rfl

/-- Sequencing a failed `Except` computation. -/
theorem exceptErrorBind {ε α β : Type} (e : ε) (f : α → Except ε β) :
    (Except.error e : Except ε α) >>= f = Except.error e := rfl

/-! ## Claims about the lifecycle orchestrator -/

/-- C1: For every termination path of launch, the process exit status follows
the fixed mapping of the `except` chain: `ImproperlyConfigured` exits with
the "success" status, `KeyboardInterrupt` exits with the "success" status,
and `TimeoutError`, `CancelledError` or any other unclassified exception
exits with the "service unavailable" status (the cleanup-time stop attempt
of the `finally` block succeeding, so that no further exception is in play —
cleanup-failure behaviour is the subject of C5). -/
theorem claim_C1_exit_status_mapping (m : String) (cleanup : StopOutcome)
    (hclean : cleanup = StopOutcome.ok) :
    (runClientMain (StartOutcome.improperlyConfigured m) cleanup).1 = ProcResult.exit EX_OK ∧
    (runClientMain StartOutcome.keyboardInterrupt cleanup).1 = ProcResult.exit EX_OK ∧
    (runClientMain (StartOutcome.timeoutErr m) cleanup).1 = ProcResult.exit EX_UNAVAILABLE ∧
    (runClientMain (StartOutcome.cancelledErr m) cleanup).1 = ProcResult.exit EX_UNAVAILABLE ∧
    (runClientMain (StartOutcome.otherExc m) cleanup).1 = ProcResult.exit EX_UNAVAILABLE := by
  subst hclean
  exact ⟨rfl, rfl, rfl, rfl, rfl⟩

/-- Witness for C1 at a concrete message and a successful cleanup stop. -/
theorem claim_C1_exit_status_mapping_witness :
    (runClientMain (StartOutcome.improperlyConfigured "bad config") StopOutcome.ok).1
        = ProcResult.exit EX_OK ∧
    (runClientMain StartOutcome.keyboardInterrupt StopOutcome.ok).1 = ProcResult.exit EX_OK ∧
    (runClientMain (StartOutcome.timeoutErr "bad config") StopOutcome.ok).1
        = ProcResult.exit EX_UNAVAILABLE ∧
    (runClientMain (StartOutcome.cancelledErr "bad config") StopOutcome.ok).1
        = ProcResult.exit EX_UNAVAILABLE ∧
    (runClientMain (StartOutcome.otherExc "bad config") StopOutcome.ok).1
        = ProcResult.exit EX_UNAVAILABLE :=
  claim_C1_exit_status_mapping "bad config" StopOutcome.ok rfl

/-- C5, counterexample: a keyboard interrupt determines the "success" exit
status in the `except` chain, yet when the cleanup-time stop attempt of the
`finally` block fails with `CancelledError`, `sys.exit(os.EX_UNAVAILABLE)`
inside the `finally` replaces the pending `SystemExit`, so the process exits
with the "service unavailable" status — the cleanup failure does mask the
original outcome's exit status. -/
theorem claim_C5_counterexample :
    exceptChainStatus StartOutcome.keyboardInterrupt = some EX_OK ∧
    (runClientMain StartOutcome.keyboardInterrupt (StopOutcome.cancelledErr "stop cancelled")).1
        = ProcResult.exit EX_UNAVAILABLE ∧
    EX_UNAVAILABLE ≠ EX_OK := by
  refine ⟨rfl, rfl, ?_⟩
  decide

/-- C5, amended: on every termination path of launch, exactly one additional
stop attempt on the engine handle is issued by the `finally` cleanup step; a
successful cleanup stop leaves the exit status determined by the original
outcome, but a cleanup-time stop failure does change it: a `CancelledError`
from the cleanup stop forces the "service unavailable" exit status regardless
of the original outcome, and any other cleanup exception escapes `__main__`
unhandled. -/
theorem claim_C5_cleanup_stop (start : StartOutcome) (cleanup : StopOutcome) :
    (runClientMain start cleanup).2 = 1 ∧
    (cleanup = StopOutcome.ok →
      (runClientMain start cleanup).1
        = ProcResult.exit ((exceptChainStatus start).getD EX_OK)) ∧
    (∀ m, cleanup = StopOutcome.cancelledErr m →
      (runClientMain start cleanup).1 = ProcResult.exit EX_UNAVAILABLE) ∧
    (∀ m, cleanup = StopOutcome.otherExc m →
      (runClientMain start cleanup).1 = ProcResult.uncaught m) := by
  refine ⟨rfl, ?_, ?_, ?_⟩
  · rintro rfl
    cases start <;> rfl
  · rintro m rfl
    rfl
  · rintro m rfl
    rfl

/-- Witness for the amended C5 at concrete outcomes. -/
theorem claim_C5_cleanup_stop_witness :
    (runClientMain StartOutcome.keyboardInterrupt StopOutcome.ok).2 = 1 ∧
    (runClientMain StartOutcome.keyboardInterrupt StopOutcome.ok).1 = ProcResult.exit EX_OK ∧
    (runClientMain StartOutcome.completed (StopOutcome.cancelledErr "c")).1
        = ProcResult.exit EX_UNAVAILABLE ∧
    (runClientMain StartOutcome.completed (StopOutcome.otherExc "boom")).1
        = ProcResult.uncaught "boom" :=
  ⟨(claim_C5_cleanup_stop StartOutcome.keyboardInterrupt StopOutcome.ok).1,
   (claim_C5_cleanup_stop StartOutcome.keyboardInterrupt StopOutcome.ok).2.1 rfl,
   (claim_C5_cleanup_stop StartOutcome.completed (StopOutcome.cancelledErr "c")).2.2.1 "c" rfl,
   (claim_C5_cleanup_stop StartOutcome.completed (StopOutcome.otherExc "boom")).2.2.2 "boom" rfl⟩

/-! ## Claims about the Settings resolver -/

/-- C2: constructing `Settings` with no explicit settings-module argument
while `WTFIX_SETTINGS_MODULE` is unset or empty raises `ImproperlyConfigured`
with a message naming that environment variable (and so does the full
`Settings.__init__`); when a module name is passed, or the variable is set
to a non-empty value, the module-name stage raises no such error. -/
theorem claim_C2_settings_module_env (envVar : Option String) :
    (pyFalsyStrOpt envVar = true →
      (∃ msg, settingsModuleName Option.none envVar
          = Except.error (PyError.improperlyConfigured msg) ∧
        ∃ p q, msg = p ++ ENVIRONMENT_VARIABLE ++ q) ∧
      ∀ gs im, ∃ msg,
        settingsInit gs im Option.none envVar
          = Except.error (PyError.improperlyConfigured msg) ∧
        ∃ p q, msg = p ++ ENVIRONMENT_VARIABLE ++ q) ∧
    (∀ m, settingsModuleName (some m) envVar = Except.ok m) ∧
    (pyFalsyStrOpt envVar = false →
      ∃ v, settingsModuleName Option.none envVar = Except.ok v) := by
  refine ⟨?_, fun m => rfl, ?_⟩
  · intro hfalsy
    have h1 : settingsModuleName Option.none envVar
        = Except.error (PyError.improperlyConfigured
          ("Settings are not configured. You must either define the environment variable "
            ++ ENVIRONMENT_VARIABLE
            ++ " or call settings.configure() before accessing settings.")) := by
      simp [settingsModuleName, hfalsy]
    refine ⟨⟨_, h1,
      "Settings are not configured. You must either define the environment variable ",
      " or call settings.configure() before accessing settings.", rfl⟩, ?_⟩
    intro gs im
    refine ⟨_, ?_,
      "Settings are not configured. You must either define the environment variable ",
      " or call settings.configure() before accessing settings.", rfl⟩
    unfold settingsInit
    rw [h1]
    rfl
  · intro hfalsy
    exact ⟨envVar.getD "", by simp [settingsModuleName, hfalsy]⟩

/-- Witness for C2: unset environment variable, explicit module name, and
non-empty environment variable, at concrete values. -/
theorem claim_C2_settings_module_env_witness :
    (∃ msg, settingsModuleName Option.none Option.none
        = Except.error (PyError.improperlyConfigured msg) ∧
      ∃ p q, msg = p ++ ENVIRONMENT_VARIABLE ++ q) ∧
    settingsModuleName (some "my_settings") Option.none = Except.ok "my_settings" ∧
    (∃ v, settingsModuleName Option.none (some "env_settings") = Except.ok v) :=
  ⟨((claim_C2_settings_module_env Option.none).1 rfl).1,
   (claim_C2_settings_module_env Option.none).2.1 "my_settings",
   (claim_C2_settings_module_env (some "env_settings")).2.2 (by decide)⟩

/-- C3: `has_safe_defaults` holds iff exactly one connection is configured;
with exactly one connection `default_connection_name` returns its name; with
two or more it raises `ImproperlyConfigured`. -/
theorem claim_C3_default_connection (st : SettingsState) (cs : List (String × PyValue))
    (hconn : st.getattr "CONNECTIONS" = some (PyValue.dict cs)) :
    (has_safe_defaults st = Except.ok true ↔ cs.length = 1) ∧
    (∀ n c, cs = [(n, c)] → default_connection_name st = Except.ok n) ∧
    (2 ≤ cs.length →
      ∃ msg, default_connection_name st
        = Except.error (PyError.improperlyConfigured msg)) := by
  have hsafe : has_safe_defaults st = Except.ok (cs.length == 1) := by
    unfold has_safe_defaults
    rw [hconn]
    rfl
  refine ⟨?_, ?_, ?_⟩
  · rw [hsafe]
    constructor
    · intro h
      have := Except.ok.inj h
      simpa using this.symm
    · intro h
      simp [h]
  · rintro n c rfl
    unfold default_connection_name
    rw [hsafe, hconn]
    rfl
  · intro h2
    have hne : (cs.length == 1) = false := by
      simp only [beq_eq_false_iff_ne, ne_eq]
      omega
    unfold default_connection_name
    rw [hsafe, hne]
    exact ⟨_, rfl⟩

/-- Witness for C3: a one-connection table and a two-connection table. -/
theorem claim_C3_default_connection_witness :
    has_safe_defaults stOneConn = Except.ok true ∧
    default_connection_name stOneConn = Except.ok "test" ∧
    (∃ msg, default_connection_name stTwoConn
      = Except.error (PyError.improperlyConfigured msg)) :=
  ⟨(claim_C3_default_connection stOneConn [("test", PyValue.dict [])] rfl).1.mpr rfl,
   (claim_C3_default_connection stOneConn [("test", PyValue.dict [])] rfl).2.1
     "test" (PyValue.dict []) rfl,
   (claim_C3_default_connection stTwoConn [("a", PyValue.dict []), ("b", PyValue.dict [])] rfl).2.2
     (by decide)⟩

/-- The override-module loop rejects a non-sequence `PIPELINE_APPS` value, at
whichever position the (unique) binding occurs. -/
theorem settingsLoop_pipeline_apps_error (v : PyValue) (hv : isinstanceListOrTuple v = false) :
    ∀ (l : List (String × PyValue)) (attrs : List (String × PyValue)) (expl : List String),
      ("PIPELINE_APPS", v) ∈ l → (l.map Prod.fst).Nodup →
      settingsLoop l attrs expl
        = Except.error (PyError.improperlyConfigured
            ("The " ++ "PIPELINE_APPS" ++ " setting must be a list or a tuple. ")) := by
  intro l
  induction l with
  | nil => intro attrs expl hmem _; cases hmem
  | cons hd tl ih =>
    intro attrs expl hmem hnd
    obtain ⟨s, w⟩ := hd
    simp only [List.map_cons] at hnd
    rcases List.mem_cons.mp hmem with heq | htl
    · cases heq
      have hup : pyIsUpper "PIPELINE_APPS" = true := by decide
      simp [settingsLoop, hup, hv]
    · have hkey : "PIPELINE_APPS" ∈ tl.map Prod.fst := List.mem_map.mpr ⟨_, htl, rfl⟩
      have hs : s ≠ "PIPELINE_APPS" := fun hseq => (List.nodup_cons.mp hnd).1 (hseq ▸ hkey)
      by_cases hup : pyIsUpper s = true
      · simp only [settingsLoop, hup, hs, if_true, if_false]
        simp [hs]
        exact ih _ _ htl (List.nodup_cons.mp hnd).2
      · simp only [settingsLoop, hup]
        simp
        exact ih _ _ htl (List.nodup_cons.mp hnd).2

/-- C7: an override settings module binding `PIPELINE_APPS` to a value that
is not a list or tuple makes `Settings.__init__` itself fail with
`ImproperlyConfigured` naming that setting — at load time, during
construction, before any use of the setting. -/
theorem claim_C7_pipeline_apps_shape (gs : List (String × PyValue))
    (im : String → Option (List (String × PyValue))) (name : String)
    (envVar : Option String) (modAttrs : List (String × PyValue)) (v : PyValue)
    (him : im name = some modAttrs)
    (hmem : ("PIPELINE_APPS", v) ∈ modAttrs)
    (hnd : (modAttrs.map Prod.fst).Nodup)
    (hv : isinstanceListOrTuple v = false) :
    ∃ msg, settingsInit gs im (some name) envVar
        = Except.error (PyError.improperlyConfigured msg) ∧
      ∃ p q, msg = p ++ "PIPELINE_APPS" ++ q := by
  refine ⟨"The " ++ "PIPELINE_APPS" ++ " setting must be a list or a tuple. ", ?_,
    "The ", " setting must be a list or a tuple. ", rfl⟩
  unfold settingsInit
  rw [show settingsModuleName (some name) envVar = Except.ok name from rfl]
  rw [exceptOkBind]
  simp only [him]
  rw [settingsLoop_pipeline_apps_error v hv modAttrs _ [] hmem hnd]
  rfl

/-- Witness for C7: `PIPELINE_APPS = 3` in a one-attribute settings module. -/
theorem claim_C7_pipeline_apps_shape_witness :
    ∃ msg, settingsInit []
        (fun n => if n = "m" then some [("PIPELINE_APPS", PyValue.int 3)] else Option.none)
        (some "m") Option.none
        = Except.error (PyError.improperlyConfigured msg) ∧
      ∃ p q, msg = p ++ "PIPELINE_APPS" ++ q :=
  claim_C7_pipeline_apps_shape [] _ "m" Option.none [("PIPELINE_APPS", PyValue.int 3)]
    (PyValue.int 3) rfl (List.mem_singleton.mpr rfl) (by decide) rfl

/-- Every element of a joined list of strings occurs verbatim inside the
join. -/
theorem pyJoin_mem_substr (sep : String) :
    ∀ (l : List String), ∀ i ∈ l, ∃ p q, pyJoin sep l = p ++ i ++ q := by
  intro l
  induction l with
  | nil => intro i hi; cases hi
  | cons a rest ih =>
    intro i hi
    rcases List.mem_cons.mp hi with rfl | hrest
    · cases rest with
      | nil => exact ⟨"", "", by simp [pyJoin]⟩
      | cons b r2 =>
        exact ⟨"", sep ++ pyJoin sep (b :: r2), by simp [pyJoin, String.append_assoc]⟩
    · obtain ⟨p, q, hpq⟩ := ih i hrest
      cases rest with
      | nil => cases hrest
      | cons b r2 =>
        refine ⟨a ++ sep ++ p, q, ?_⟩
        show a ++ sep ++ pyJoin sep (b :: r2) = a ++ sep ++ p ++ i ++ q
        rw [hpq]
        simp [String.append_assoc]

/-- Reduction of `get_group_templates` for a connection with a
`GROUP_TEMPLATES` dict, down to the identifier-filtering step. -/
theorem get_group_templates_reduce (st : SettingsState) (name : String)
    (cs conn ts : List (String × PyValue)) (ids : Option (List String))
    (hconn : st.getattr "CONNECTIONS" = some (PyValue.dict cs))
    (hc : lookupA name cs = some (PyValue.dict conn))
    (hg : lookupA "GROUP_TEMPLATES" conn = some (PyValue.dict ts)) :
    get_group_templates st (some name) ids =
      match ids with
      | Option.none => Except.ok ts
      | some ids =>
        if (ts.filter (fun p => ids.contains p.1)).length = ids.length then
          Except.ok (ts.filter (fun p => ids.contains p.1))
        else
          Except.error (PyError.improperlyConfigured
            ("No group template defined for identifier(s): "
              ++ pyJoin ", " (ids.filter
                  (fun i => !((ts.filter (fun p => ids.contains p.1)).any (fun p => p.1 = i))))
              ++ ".")) := by
  unfold get_group_templates get_group_templates_named
  simp only [hconn, hc, hg]

/-- Keys of the filtered template list are the filtered keys. -/
theorem map_fst_filter_contains (ids : List String) (ts : List (String × PyValue)) :
    (ts.filter (fun p => ids.contains p.1)).map Prod.fst
      = (ts.map Prod.fst).filter (fun k => ids.contains k) := by
  induction ts with
  | nil => rfl
  | cons a l ih =>
    by_cases h : a.1 ∈ ids <;>
      (simp [List.filter_cons, h] at ih ⊢; exact ih)

/-- C6: for a connection with defined group templates, requesting a set of
identifiers that are all defined returns a mapping over exactly those
identifiers; requesting a set with an absent identifier raises
`ImproperlyConfigured` naming each missing identifier; and requesting no
identifier set returns all of the connection's group templates. -/
theorem claim_C6_group_templates (st : SettingsState) (name : String)
    (cs conn ts : List (String × PyValue)) (ids : List String)
    (hconn : st.getattr "CONNECTIONS" = some (PyValue.dict cs))
    (hc : lookupA name cs = some (PyValue.dict conn))
    (hg : lookupA "GROUP_TEMPLATES" conn = some (PyValue.dict ts))
    (hts : (ts.map Prod.fst).Nodup) (hids : ids.Nodup) :
    ((∀ i ∈ ids, i ∈ ts.map Prod.fst) →
      ∃ out, get_group_templates st (some name) (some ids) = Except.ok out ∧
        ∀ i, i ∈ out.map Prod.fst ↔ i ∈ ids) ∧
    ((∃ i ∈ ids, i ∉ ts.map Prod.fst) →
      ∃ msg, get_group_templates st (some name) (some ids)
          = Except.error (PyError.improperlyConfigured msg) ∧
        ∀ i ∈ ids, i ∉ ts.map Prod.fst → ∃ p q, msg = p ++ i ++ q) ∧
    get_group_templates st (some name) Option.none = Except.ok ts := by
  have hred := get_group_templates_reduce st name cs conn ts (some ids) hconn hc hg
  have hrednone := get_group_templates_reduce st name cs conn ts Option.none hconn hc hg
  have hfks : (ts.filter (fun p => ids.contains p.1)).map Prod.fst
      = (ts.map Prod.fst).filter (fun k => ids.contains k) :=
    map_fst_filter_contains ids ts
  have hndfks : ((ts.filter (fun p => ids.contains p.1)).map Prod.fst).Nodup := by
    rw [hfks]; exact hts.filter _
  have hmemfks : ∀ i, i ∈ (ts.filter (fun p => ids.contains p.1)).map Prod.fst ↔
      (i ∈ ts.map Prod.fst ∧ i ∈ ids) := by
    intro i
    rw [hfks, List.mem_filter]
    simp
  refine ⟨?_, ?_, hrednone⟩
  · intro hall
    have hiff : ∀ i, i ∈ (ts.filter (fun p => ids.contains p.1)).map Prod.fst ↔ i ∈ ids := by
      intro i
      rw [hmemfks]
      exact ⟨fun h => h.2, fun h => ⟨hall i h, h⟩⟩
    have hperm : List.Perm ((ts.filter (fun p => ids.contains p.1)).map Prod.fst) ids :=
      (List.perm_ext_iff_of_nodup hndfks hids).mpr hiff
    have hlen : (ts.filter (fun p => ids.contains p.1)).length = ids.length := by
      have := hperm.length_eq
      rwa [List.length_map] at this
    rw [hred]
    simp only [hlen, if_pos rfl]
    exact ⟨_, rfl, hiff⟩
  · rintro ⟨i0, hi0ids, hi0absent⟩
    have hsubset : (ts.filter (fun p => ids.contains p.1)).map Prod.fst ⊆ ids := by
      intro x hx
      exact (hmemfks x).mp hx |>.2
    have hlenne : (ts.filter (fun p => ids.contains p.1)).length ≠ ids.length := by
      intro heq
      have hsp : List.Subperm ((ts.filter (fun p => ids.contains p.1)).map Prod.fst) ids :=
        List.subperm_of_subset hndfks hsubset
      have hperm := hsp.perm_of_length_le (by rw [List.length_map, heq])
      have : i0 ∈ (ts.filter (fun p => ids.contains p.1)).map Prod.fst :=
        hperm.mem_iff.mpr hi0ids
      exact hi0absent ((hmemfks i0).mp this).1
    rw [hred]
    simp only [if_neg hlenne]
    refine ⟨_, rfl, ?_⟩
    intro i hiids hiabsent
    have hmissing : i ∈ ids.filter
        (fun i => !((ts.filter (fun p => ids.contains p.1)).any (fun p => p.1 = i))) := by
      rw [List.mem_filter]
      refine ⟨hiids, ?_⟩
      simp only [Bool.not_eq_eq_eq_not, Bool.not_true, List.any_eq_false]
      intro p hp hpi
      apply hiabsent
      have hmm : p.1 ∈ (ts.filter (fun q => ids.contains q.1)).map Prod.fst :=
        List.mem_map.mpr ⟨p, hp, rfl⟩
      have hpe : p.1 = i := of_decide_eq_true hpi
      rw [hpe] at hmm
      exact ((hmemfks i).mp hmm).1
    obtain ⟨p, q, hpq⟩ := pyJoin_mem_substr ", " _ i hmissing
    refine ⟨"No group template defined for identifier(s): " ++ p, q ++ ".", ?_⟩
    rw [hpq]
    simp [String.append_assoc]

/-- Witness for C6: one connection defining templates "A" and "C";
requesting `{"A"}` succeeds with exactly that identifier, requesting
`{"A","B"}` fails naming "B", requesting nothing returns both templates. -/
theorem claim_C6_group_templates_witness :
    (∃ out, get_group_templates
        { attrs := [("CONNECTIONS", PyValue.dict [("test", PyValue.dict
            [("GROUP_TEMPLATES", PyValue.dict
              [("A", PyValue.int 1), ("C", PyValue.int 3)])])])],
          explicitSettings := [], activeProtocol := Option.none, loggerCell := Option.none }
        (some "test") (some ["A"]) = Except.ok out ∧
      ∀ i, i ∈ out.map Prod.fst ↔ i ∈ ["A"]) ∧
    (∃ msg, get_group_templates
        { attrs := [("CONNECTIONS", PyValue.dict [("test", PyValue.dict
            [("GROUP_TEMPLATES", PyValue.dict
              [("A", PyValue.int 1), ("C", PyValue.int 3)])])])],
          explicitSettings := [], activeProtocol := Option.none, loggerCell := Option.none }
        (some "test") (some ["A", "B"]) = Except.error (PyError.improperlyConfigured msg) ∧
      ∀ i ∈ ["A", "B"], i ∉ ["A", "C"] → ∃ p q, msg = p ++ i ++ q) ∧
    get_group_templates
        { attrs := [("CONNECTIONS", PyValue.dict [("test", PyValue.dict
            [("GROUP_TEMPLATES", PyValue.dict
              [("A", PyValue.int 1), ("C", PyValue.int 3)])])])],
          explicitSettings := [], activeProtocol := Option.none, loggerCell := Option.none }
        (some "test") Option.none
      = Except.ok [("A", PyValue.int 1), ("C", PyValue.int 3)] := by
  have h := claim_C6_group_templates
    { attrs := [("CONNECTIONS", PyValue.dict [("test", PyValue.dict
        [("GROUP_TEMPLATES", PyValue.dict
          [("A", PyValue.int 1), ("C", PyValue.int 3)])])])],
      explicitSettings := [], activeProtocol := Option.none, loggerCell := Option.none }
    "test"
    [("test", PyValue.dict [("GROUP_TEMPLATES", PyValue.dict
      [("A", PyValue.int 1), ("C", PyValue.int 3)])])]
    [("GROUP_TEMPLATES", PyValue.dict [("A", PyValue.int 1), ("C", PyValue.int 3)])]
    [("A", PyValue.int 1), ("C", PyValue.int 3)]
  refine ⟨(h ["A"] rfl rfl rfl (by decide) (by decide)).1 ?_, ?_, ?_⟩
  · intro i hi
    simp at hi
    simp [hi]
  · refine (h ["A", "B"] rfl rfl rfl (by decide) (by decide)).2.1 ⟨"B", by decide, by decide⟩
  · exact (h ["A"] rfl rfl rfl (by decide) (by decide)).2.2

/-! ## Lemmas about the projection loop -/

/-- Projection never touches any field of the shared settings state other
than the active-protocol cache. -/
theorem projectLoop_frame (mods : String → Option (List (String × ClassRef))) :
    ∀ (items : List (String × PyValue)) (st : SettingsState)
      (view : List (String × PyValue)) (out : List (String × PyValue) × SettingsState),
      projectLoop mods items st view = Except.ok out →
      out.2.attrs = st.attrs ∧ out.2.explicitSettings = st.explicitSettings ∧
        out.2.loggerCell = st.loggerCell := by
  intro items
  induction items with
  | nil =>
    intro st view out h
    cases h
    exact ⟨rfl, rfl, rfl⟩
  | cons hd tl ih =>
    intro st view out h
    obtain ⟨k, v⟩ := hd
    simp only [projectLoop] at h
    by_cases hk : k = "PROTOCOL"
    · rw [if_pos hk] at h
      rcases hload : resolveProtocolValue mods v with e | c <;> rw [hload] at h
      · cases h
      · exact ih { st with activeProtocol := some c } (setattrL view k v) out h
    · rw [if_neg hk] at h
      exact ih _ _ _ h

/-- If every `PROTOCOL` entry of the remaining items resolves to `C` and the
cache already holds `C`, the loop leaves the cache at `C`. -/
theorem projectLoop_cache_stable (mods : String → Option (List (String × ClassRef)))
    (C : ClassRef) :
    ∀ (items : List (String × PyValue)) (st : SettingsState)
      (view : List (String × PyValue)) (out : List (String × PyValue) × SettingsState),
      projectLoop mods items st view = Except.ok out →
      (∀ p ∈ items, p.1 = "PROTOCOL" →
        ∃ s, p.2 = PyValue.str s ∧ loadClass mods s = Except.ok C) →
      st.activeProtocol = some C →
      out.2.activeProtocol = some C := by
  intro items
  induction items with
  | nil =>
    intro st view out h _ hcache
    cases h
    exact hcache
  | cons hd tl ih =>
    intro st view out h hall hcache
    obtain ⟨k, v⟩ := hd
    simp only [projectLoop] at h
    by_cases hk : k = "PROTOCOL"
    · rw [if_pos hk] at h
      obtain ⟨s, hvs, hres⟩ := hall (k, v) (List.mem_cons_self _ _) hk
      have hstep : resolveProtocolValue mods v = Except.ok C := by
        have hv2 : v = PyValue.str s := hvs
        rw [hv2]
        exact hres
      rw [hstep] at h
      exact ih { st with activeProtocol := some C } (setattrL view k v) out h
        (fun p hp => hall p (List.mem_cons_of_mem _ hp)) rfl
    · rw [if_neg hk] at h
      exact ih _ _ _ h (fun p hp => hall p (List.mem_cons_of_mem _ hp)) hcache

/-- If some `PROTOCOL` entry occurs among the items and every `PROTOCOL`
entry resolves to `C`, a successful loop leaves the cache holding `C`. -/
theorem projectLoop_cache_of_mem (mods : String → Option (List (String × ClassRef)))
    (C : ClassRef) :
    ∀ (items : List (String × PyValue)) (st : SettingsState)
      (view : List (String × PyValue)) (out : List (String × PyValue) × SettingsState),
      projectLoop mods items st view = Except.ok out →
      (∃ p ∈ items, p.1 = "PROTOCOL") →
      (∀ p ∈ items, p.1 = "PROTOCOL" →
        ∃ s, p.2 = PyValue.str s ∧ loadClass mods s = Except.ok C) →
      out.2.activeProtocol = some C := by
  intro items
  induction items with
  | nil =>
    rintro st view out h ⟨p, hp, -⟩ _
    cases hp
  | cons hd tl ih =>
    rintro st view out h ⟨p, hp, hpk⟩ hall
    obtain ⟨k, v⟩ := hd
    simp only [projectLoop] at h
    by_cases hk : k = "PROTOCOL"
    · rw [if_pos hk] at h
      obtain ⟨s, hvs, hres⟩ := hall (k, v) (List.mem_cons_self _ _) hk
      have hstep : resolveProtocolValue mods v = Except.ok C := by
        have hv2 : v = PyValue.str s := hvs
        rw [hv2]
        exact hres
      rw [hstep] at h
      exact projectLoop_cache_stable mods C tl { st with activeProtocol := some C }
        (setattrL view k v) out h
        (fun q hq => hall q (List.mem_cons_of_mem _ hq)) rfl
    · rw [if_neg hk] at h
      rcases List.mem_cons.mp hp with rfl | hptl
      · exact absurd hpk hk
      · exact ih _ _ _ h ⟨p, hptl, hpk⟩ (fun q hq => hall q (List.mem_cons_of_mem _ hq))

/-- A loop over items with no `PROTOCOL` key returns the settings state
entirely unchanged. -/
theorem projectLoop_no_protocol (mods : String → Option (List (String × ClassRef))) :
    ∀ (items : List (String × PyValue)) (st : SettingsState)
      (view : List (String × PyValue)) (out : List (String × PyValue) × SettingsState),
      projectLoop mods items st view = Except.ok out →
      (∀ p ∈ items, p.1 ≠ "PROTOCOL") →
      out.2 = st := by
  intro items
  induction items with
  | nil =>
    intro st view out h _
    cases h
    rfl
  | cons hd tl ih =>
    intro st view out h hnone
    obtain ⟨k, v⟩ := hd
    have hk : k ≠ "PROTOCOL" := hnone (k, v) (List.mem_cons_self _ _)
    simp only [projectLoop, if_neg hk] at h
    exact ih _ _ _ h (fun p hp => hnone p (List.mem_cons_of_mem _ hp))

/-- Membership through one `setattr` step. -/
theorem setattrL_mem (attrs : List (String × PyValue)) (name : String) (v : PyValue)
    (p : String × PyValue) (hp : p ∈ setattrL attrs name v) :
    p ∈ attrs ∨ p = (name, v) := by
  unfold setattrL at hp
  split at hp
  · rcases List.mem_map.mp hp with ⟨q, hq, hfq⟩
    by_cases h : q.1 = name
    · right
      rw [← hfq, if_pos h]
    · left
      rw [if_neg h] at hfq
      rw [← hfq]
      exact hq
  · rcases List.mem_append.mp hp with h | h
    · exact Or.inl h
    · right
      simpa using h

/-- Every binding of the view produced by the loop comes from the items or
from the initial accumulator. -/
theorem projectLoop_view_mem (mods : String → Option (List (String × ClassRef))) :
    ∀ (items : List (String × PyValue)) (st : SettingsState)
      (view : List (String × PyValue)) (out : List (String × PyValue) × SettingsState),
      projectLoop mods items st view = Except.ok out →
      ∀ p ∈ out.1, p ∈ items ∨ p ∈ view := by
  intro items
  induction items with
  | nil =>
    intro st view out h p hp
    cases h
    exact Or.inr hp
  | cons hd tl ih =>
    intro st view out h p hp
    obtain ⟨k, v⟩ := hd
    simp only [projectLoop] at h
    by_cases hk : k = "PROTOCOL"
    · rw [if_pos hk] at h
      rcases hload : resolveProtocolValue mods v with e | c <;> rw [hload] at h
      · cases h
      · rcases ih _ _ _ h p hp with htl | hacc
        · exact Or.inl (List.mem_cons_of_mem _ htl)
        · rcases setattrL_mem _ _ _ _ hacc with hv | hv
          · exact Or.inr hv
          · exact Or.inl (by rw [hv]; exact List.mem_cons_self _ _)
    · rw [if_neg hk] at h
      rcases ih _ _ _ h p hp with htl | hacc
      · exact Or.inl (List.mem_cons_of_mem _ htl)
      · rcases setattrL_mem _ _ _ _ hacc with hv | hv
        · exact Or.inr hv
        · exact Or.inl (by rw [hv]; exact List.mem_cons_self _ _)

/-- A loop prefix without `PROTOCOL` keys only accumulates view bindings. -/
theorem projectLoop_prefix_skip (mods : String → Option (List (String × ClassRef))) :
    ∀ (l1 rest : List (String × PyValue)) (st : SettingsState)
      (view : List (String × PyValue)),
      (∀ p ∈ l1, p.1 ≠ "PROTOCOL") →
      projectLoop mods (l1 ++ rest) st view
        = projectLoop mods rest st (l1.foldl (fun a p => setattrL a p.1 p.2) view) := by
  intro l1
  induction l1 with
  | nil => intro rest st view _; rfl
  | cons hd tl ih =>
    intro rest st view h
    obtain ⟨k, v⟩ := hd
    have hk : k ≠ "PROTOCOL" := h (k, v) (List.mem_cons_self _ _)
    simp only [List.cons_append, projectLoop, if_neg hk, List.foldl_cons]
    exact ih rest st _ (fun p hp => h p (List.mem_cons_of_mem _ hp))

/-- A failed dynamic class load is a `ValueError`, `ImportError` or
`AttributeError` — never an `ImproperlyConfigured`. -/
theorem loadClass_error_shape (mods : String → Option (List (String × ClassRef)))
    (s : String) (e : PyError) (h : loadClass mods s = Except.error e) :
    (∃ m, e = PyError.importError m) ∨ (∃ c, e = PyError.attributeError c) ∨
      (∃ m, e = PyError.valueError m) := by
  unfold loadClass at h
  split at h
  · rename_i modName clsName _
    rcases hm : mods modName with - | table <;> simp only [hm] at h
    · exact Or.inl ⟨modName, (Except.error.inj h).symm⟩
    · rcases hf : (table.find? (fun p => p.1 = clsName)).map Prod.snd with - | c <;>
        rw [hf] at h
      · exact Or.inr (Or.inl ⟨clsName, (Except.error.inj h).symm⟩)
      · cases h
  · exact Or.inr (Or.inr ⟨_, (Except.error.inj h).symm⟩)

/-- Reduction of `SessionSettings.__init__` for an existing connection name
down to the attribute loop. -/
theorem sessionInitNamed_reduce (mods : String → Option (List (String × ClassRef)))
    (st : SettingsState) (name : String) (cs conn : List (String × PyValue))
    (hconn : st.getattr "CONNECTIONS" = some (PyValue.dict cs))
    (hc : lookupA name cs = some (PyValue.dict conn)) :
    sessionInitNamed mods st name = projectLoop mods conn st [] := by
  unfold sessionInitNamed
  simp only [hconn, hc]

/-! ## Claims about the session settings projector -/

/-- C10: projecting a connection whose configuration has no `PROTOCOL` key
leaves the active-protocol cache exactly as it was; projection never
modifies any field of the shared settings state other than that cache; and
every binding written onto the fresh view comes from the connection's own
parameters. -/
theorem claim_C10_projection_frame (mods : String → Option (List (String × ClassRef)))
    (st : SettingsState) (name : String) (cs conn view : List (String × PyValue))
    (st' : SettingsState)
    (hconn : st.getattr "CONNECTIONS" = some (PyValue.dict cs))
    (hc : lookupA name cs = some (PyValue.dict conn))
    (hproj : sessionInit mods st (some name) = Except.ok (view, st')) :
    (st'.attrs = st.attrs ∧ st'.explicitSettings = st.explicitSettings ∧
      st'.loggerCell = st.loggerCell) ∧
    ((∀ p ∈ conn, p.1 ≠ "PROTOCOL") → st'.activeProtocol = st.activeProtocol) ∧
    (∀ p ∈ view, p ∈ conn) := by
  have h' : sessionInitNamed mods st name = Except.ok (view, st') := hproj
  rw [sessionInitNamed_reduce mods st name cs conn hconn hc] at h'
  have hfr := projectLoop_frame mods conn st [] (view, st') h'
  refine ⟨⟨hfr.1, hfr.2.1, hfr.2.2⟩, ?_, ?_⟩
  · intro hnp
    have hst : (view, st').2 = st := projectLoop_no_protocol mods conn st [] (view, st') h' hnp
    rw [show st' = st from hst]
  · intro p hp
    rcases projectLoop_view_mem mods conn st [] (view, st') h' p hp with h | h
    · exact h
    · exact absurd h (List.not_mem_nil p)

/-- Witness for C10: projecting the sole protocol-free connection of
`stPlain` returns its parameter unchanged state. -/
theorem claim_C10_projection_frame_witness :
    (stPlain.attrs = stPlain.attrs ∧ stPlain.explicitSettings = stPlain.explicitSettings ∧
      stPlain.loggerCell = stPlain.loggerCell) ∧
    ((∀ p ∈ [("HOST", PyValue.str "localhost")], p.1 ≠ "PROTOCOL") →
      stPlain.activeProtocol = stPlain.activeProtocol) ∧
    (∀ p ∈ [("HOST", PyValue.str "localhost")], p ∈ [("HOST", PyValue.str "localhost")]) :=
  claim_C10_projection_frame demoNoMods stPlain "test"
    [("test", PyValue.dict [("HOST", PyValue.str "localhost")])]
    [("HOST", PyValue.str "localhost")] [("HOST", PyValue.str "localhost")] stPlain
    rfl rfl rfl

/-- C4: projecting connection X and then connection Y, both defining
(different) resolvable `PROTOCOL` strings, leaves the shared
active-protocol cache holding the class resolved from Y's `PROTOCOL` (not
X's), and a subsequent `active_protocol` read returns that cached class with
the state untouched and no resolution performed — independently of
the import environment. -/
theorem claim_C4_last_projection_wins (mods : String → Option (List (String × ClassRef)))
    (st : SettingsState) (cs cx cy viewX viewY : List (String × PyValue))
    (X Y px py : String) (PX PY : ClassRef) (stX stY : SettingsState)
    (hconn : st.getattr "CONNECTIONS" = some (PyValue.dict cs))
    (hcx : lookupA X cs = some (PyValue.dict cx))
    (hcy : lookupA Y cs = some (PyValue.dict cy))
    (hxmem : ∃ p ∈ cx, p.1 = "PROTOCOL")
    (hxall : ∀ p ∈ cx, p.1 = "PROTOCOL" → p.2 = PyValue.str px)
    (hxres : loadClass mods px = Except.ok PX)
    (hymem : ∃ p ∈ cy, p.1 = "PROTOCOL")
    (hyall : ∀ p ∈ cy, p.1 = "PROTOCOL" → p.2 = PyValue.str py)
    (hyres : loadClass mods py = Except.ok PY)
    (hXY : PX ≠ PY)
    (h1 : sessionInit mods st (some X) = Except.ok (viewX, stX))
    (h2 : sessionInit mods stX (some Y) = Except.ok (viewY, stY)) :
    stX.activeProtocol = some PX ∧
    stY.activeProtocol = some PY ∧
    stY.activeProtocol ≠ some PX ∧
    ∀ mods2, active_protocol_get mods2 stY = Except.ok (PY, stY, 0) := by
  have h1' : sessionInitNamed mods st X = Except.ok (viewX, stX) := h1
  rw [sessionInitNamed_reduce mods st X cs cx hconn hcx] at h1'
  have hX : stX.activeProtocol = some PX :=
    projectLoop_cache_of_mem mods PX cx st [] (viewX, stX) h1' hxmem
      (fun p hp hk => ⟨px, hxall p hp hk, hxres⟩)
  have hattrsX : stX.attrs = st.attrs := (projectLoop_frame mods cx st [] (viewX, stX) h1').1
  have hconnX : stX.getattr "CONNECTIONS" = some (PyValue.dict cs) := by
    show lookupA "CONNECTIONS" stX.attrs = _
    rw [hattrsX]
    exact hconn
  have h2' : sessionInitNamed mods stX Y = Except.ok (viewY, stY) := h2
  rw [sessionInitNamed_reduce mods stX Y cs cy hconnX hcy] at h2'
  have hY : stY.activeProtocol = some PY :=
    projectLoop_cache_of_mem mods PY cy stX [] (viewY, stY) h2' hymem
      (fun p hp hk => ⟨py, hyall p hp hk, hyres⟩)
  refine ⟨hX, hY, ?_, ?_⟩
  · rw [hY]
    intro hcontra
    exact hXY (Option.some.inj hcontra).symm
  · intro mods2
    unfold active_protocol_get
    rw [hY]

/-- Witness for C4: connections "X" and "Y" of `stXY` resolving to the
distinct classes of `demoMods`. -/
theorem claim_C4_last_projection_wins_witness :
    stXYafterX.activeProtocol = some "clsA" ∧
    stXYafterXY.activeProtocol = some "clsB" ∧
    stXYafterXY.activeProtocol ≠ some "clsA" ∧
    active_protocol_get demoNoMods stXYafterXY
      = Except.ok ("clsB", stXYafterXY, 0) := by
  have h := claim_C4_last_projection_wins demoMods stXY
    [("X", PyValue.dict [("PROTOCOL", PyValue.str "proto.A")]),
     ("Y", PyValue.dict [("PROTOCOL", PyValue.str "proto.B")])]
    [("PROTOCOL", PyValue.str "proto.A")] [("PROTOCOL", PyValue.str "proto.B")]
    [("PROTOCOL", PyValue.str "proto.A")] [("PROTOCOL", PyValue.str "proto.B")]
    "X" "Y" "proto.A" "proto.B" "clsA" "clsB" stXYafterX stXYafterXY
    rfl rfl rfl
    ⟨("PROTOCOL", PyValue.str "proto.A"), List.mem_singleton.mpr rfl, rfl⟩
    (by intro p hp _; rw [List.mem_singleton.mp hp])
    rfl
    ⟨("PROTOCOL", PyValue.str "proto.B"), List.mem_singleton.mpr rfl, rfl⟩
    (by intro p hp _; rw [List.mem_singleton.mp hp])
    rfl
    (by decide)
    rfl rfl
  exact ⟨h.1, h.2.1, h.2.2.1, h.2.2.2 demoNoMods⟩

/-- C8, counterexample: constructing the session view for a connection name
that is not a key of `CONNECTIONS` raises `KeyError`, which is not an
`ImproperlyConfigured` — refuting the claim that only ConfigurationError
escapes projection. -/
theorem claim_C8_counterexample :
    sessionInit demoNoMods stOneConn (some "missing")
      = Except.error (PyError.keyError "missing") ∧
    isImproperlyConfigured (PyError.keyError "missing") = false :=
  ⟨rfl, rfl⟩

/-- C8, amended: constructing the session view for a missing connection name
raises `KeyError` (not ConfigurationError); a connection whose `PROTOCOL`
string cannot be resolved raises the underlying dynamic-loading error — a
`ValueError`, `ImportError` or `AttributeError`, never an
`ImproperlyConfigured`. -/
theorem claim_C8_projection_error_types (mods : String → Option (List (String × ClassRef)))
    (st : SettingsState) (cs : List (String × PyValue)) (name : String)
    (hconn : st.getattr "CONNECTIONS" = some (PyValue.dict cs)) :
    (lookupA name cs = Option.none →
      sessionInit mods st (some name) = Except.error (PyError.keyError name)) ∧
    (∀ (conn l1 l2 : List (String × PyValue)) (s : String) (e : PyError),
      lookupA name cs = some (PyValue.dict conn) →
      conn = l1 ++ ("PROTOCOL", PyValue.str s) :: l2 →
      (∀ p ∈ l1, p.1 ≠ "PROTOCOL") →
      loadClass mods s = Except.error e →
      sessionInit mods st (some name) = Except.error e ∧
        ((∃ m, e = PyError.importError m) ∨ (∃ c, e = PyError.attributeError c) ∨
          (∃ m, e = PyError.valueError m))) := by
  constructor
  · intro hnone
    show sessionInitNamed mods st name = _
    unfold sessionInitNamed
    simp [hconn, hnone]
  · rintro conn l1 l2 s e hc rfl hl1 herr
    refine ⟨?_, loadClass_error_shape mods s e herr⟩
    show sessionInitNamed mods st name = Except.error e
    rw [sessionInitNamed_reduce mods st name cs (l1 ++ ("PROTOCOL", PyValue.str s) :: l2)
      hconn hc]
    rw [projectLoop_prefix_skip mods l1 (("PROTOCOL", PyValue.str s) :: l2) st [] hl1]
    simp [projectLoop, resolveProtocolValue, herr]

/-- Witness for the amended C8: a missing name on `stOneConn` and the
unloadable protocol module of `stBadProto`. -/
theorem claim_C8_projection_error_types_witness :
    sessionInit demoNoMods stOneConn (some "nope")
      = Except.error (PyError.keyError "nope") ∧
    (sessionInit demoNoMods stBadProto (some "test")
        = Except.error (PyError.importError "nosuch") ∧
      ((∃ m, PyError.importError "nosuch" = PyError.importError m) ∨
        (∃ c, PyError.importError "nosuch" = PyError.attributeError c) ∨
        (∃ m, PyError.importError "nosuch" = PyError.valueError m))) :=
  ⟨(claim_C8_projection_error_types demoNoMods stOneConn
      [("test", PyValue.dict [])] "nope" rfl).1 rfl,
   (claim_C8_projection_error_types demoNoMods stBadProto
      [("test", PyValue.dict [("PROTOCOL", PyValue.str "nosuch.X")])] "test" rfl).2
     [("PROTOCOL", PyValue.str "nosuch.X")] [] [] "nosuch.X"
     (PyError.importError "nosuch") rfl rfl
     (fun p hp => absurd hp (List.not_mem_nil p)) rfl⟩

/-- C9: constructing the session view with the connection name omitted, on a
state with exactly one (fully resolvable) connection, does NOT yield the
explicit-name view: the source evaluates `settings.default_connection[0]`
and `SessionSettings` is not subscriptable, so the construction always
raises `TypeError` — even though `default_connection_name` is "test" and the
explicit construction `SessionSettings("test")` succeeds. -/
theorem claim_C9_default_projection_bug :
    sessionInit demoMods stProto Option.none
      = Except.error
          (PyError.typeError "\x27SessionSettings\x27 object is not subscriptable") ∧
    sessionInit demoMods stProto (some "test")
      = Except.ok ([("PROTOCOL", PyValue.str "proto.A")],
          { stProto with activeProtocol := some "clsA" }) ∧
    default_connection_name stProto = Except.ok "test" :=
  ⟨rfl, rfl, rfl⟩

end WTFIX
